import Mathlib

/-!
Shallow embedding of the button state machine module
(src/Btn_SM_Module.c, src/Btn_SM_Module.h, src/Btn_SM_Config.h).

Modelling conventions:
- uint8 and uint16 values are Nat; where 16-bit overflow matters the
  arithmetic is made explicit (see tmElapsed and elapsedModSpec).
- The two injected function pointers of the module are modelled as a
  level-source function (getBtn : Nat -> Nat) and as the single timestamp
  (now : Nat) the engine samples during one call: Btn_Channel_Process
  calls sg_pfGetTm at most once per invocation, so passing the sampled
  value is faithful.
- The static arrays sg_aptBtnPara / sg_atBtnSt (size MAX_BTN_CH) are
  modelled as functions from Fin MAX_BTN_CH.  A NULL parameter pointer is
  Option.none; dereferencing it (undefined behavior in the source) is
  modelled by returning Option.none from the whole operation.
- T_BTN_RESULT output: the engine writes the fields of the caller-supplied
  record only on some paths; the model returns Option T_BTN_RESULT, none
  meaning the record was left untouched.
- The configuration registers parameter structures by pointer; here each
  channel holds its parameter record by value, which matches the layout
  produced by Btn_SM_Easy_Init (one record per channel).
-/

/-- MAX_BTN_CH, from src/Btn_SM_Config.h line 23. -/
def MAX_BTN_CH : Nat := 3

/-- Number of states in the state machine (Btn_SM_Module.h line 65). -/
def BTN_STATE_NUM : Nat := 13

/-- Number of trigger situations (Btn_SM_Module.h line 66). -/
def BTN_TRG_NUM : Nat := 4

/-- Button just pressed event (Btn_SM_Module.h line 69). -/
def BTN_PRESS_EVT : Nat := 0

/-- Button just short released event (Btn_SM_Module.h line 70). -/
def BTN_S_RELEASE_EVT : Nat := 1

/-- Button just long released event (Btn_SM_Module.h line 71). -/
def BTN_L_RELEASE_EVT : Nat := 2

/-- Button pressed totally event (Btn_SM_Module.h line 72). -/
def BTN_PRESSED_EVT : Nat := 3

/-- Button is long pressed (Btn_SM_Module.h line 73). -/
def BTN_LONG_PRESSED_EVT : Nat := 4

/-- Button short released totally event (Btn_SM_Module.h line 74). -/
def BTN_S_RELEASED_EVT : Nat := 5

/-- Button long released totally event (Btn_SM_Module.h line 75). -/
def BTN_L_RELEASED_EVT : Nat := 6

/-- Button is pressed before debounce (Btn_SM_Module.h line 77). -/
def BTN_PRESS_PRE_ST : Nat := 7

/-- Button is released before debounce from short press (line 78). -/
def BTN_SHORT_RELEASE_ST : Nat := 8

/-- Button is released before debounce from long press (line 79). -/
def BTN_LONG_RELEASE_ST : Nat := 9

/-- Button is not pressed or released (Btn_SM_Module.h line 80). -/
def BTN_IDLE_ST : Nat := 10

/-- Button is short pressed after debounce (Btn_SM_Module.h line 81). -/
def BTN_PRESS_AFT_ST : Nat := 11

/-- Button is long pressed (Btn_SM_Module.h line 82). -/
def BTN_HOLDING_ST : Nat := 12

/-- No event with the button (Btn_SM_Module.h line 83). -/
def BTN_NONE_EVT : Nat := 13

/-- Button is disabled (Btn_SM_Module.h line 84). -/
def BTN_DIS_ST : Nat := 14

/-- Offset between a debounce state and the state it reports (line 86). -/
def BTN_GO_BACK_OFFSET : Nat := 3

/-- Offset for the time-out trigger in the state table (line 87). -/
def BTN_TM_TRG_EVT_OFFSET : Nat := 2

/-- Correct condition (Btn_SM_Module.h line 89). -/
def SUCCESS : Nat := 0

/-- Error condition (Btn_SM_Module.h line 90). -/
def BTN_ERROR : Nat := 255

/-- Button input function is enabled (Btn_SM_Module.h line 99). -/
def BTN_FUNC_ENABLE : Nat := 1

/-- Button input function is disabled (Btn_SM_Module.h line 100). -/
def BTN_FUNC_DISABLE : Nat := 0

/-- T_BTN_PARA, the per-channel parameter structure
(Btn_SM_Module.h lines 152-162; the pfGetBtnSt member is compiled out
because __BTN_SM_SPECIFIED_BTN_ST_FN is not defined in Btn_SM_Config.h). -/
structure T_BTN_PARA where
  u16LongPressTm : Nat
  u16DebounceTm : Nat
  u8BtnEn : Nat
  u8NormalSt : Nat
  u8Ch : Nat
deriving DecidableEq, Repr

/-- T_BTN_RESULT, the event/state pair written for the caller
(Btn_SM_Module.h lines 177-181). -/
structure T_BTN_RESULT where
  u8Evt : Nat
  u8State : Nat
deriving DecidableEq, Repr

/-- T_BTN_ST, the per-channel running status
(Btn_SM_Module.h lines 197-202). -/
structure T_BTN_ST where
  u16DebounceOldTm : Nat
  u16LongPressOldTm : Nat
  u8BtnSt : Nat
deriving DecidableEq, Repr

/-- The state transition table cg_aau8StateMachine
(src/Btn_SM_Module.c lines 56-74), 13 rows (one per state) by 4 columns
(one per situation). -/
def cg_aau8StateMachine : List (List Nat) :=
  [ [BTN_PRESS_PRE_ST,     BTN_PRESS_PRE_ST,     BTN_PRESS_PRE_ST,     BTN_PRESS_PRE_ST],
    [BTN_SHORT_RELEASE_ST, BTN_SHORT_RELEASE_ST, BTN_SHORT_RELEASE_ST, BTN_SHORT_RELEASE_ST],
    [BTN_LONG_RELEASE_ST,  BTN_LONG_RELEASE_ST,  BTN_LONG_RELEASE_ST,  BTN_LONG_RELEASE_ST],
    [BTN_PRESS_AFT_ST,     BTN_PRESS_AFT_ST,     BTN_PRESS_AFT_ST,     BTN_PRESS_AFT_ST],
    [BTN_HOLDING_ST,       BTN_HOLDING_ST,       BTN_HOLDING_ST,       BTN_HOLDING_ST],
    [BTN_IDLE_ST,          BTN_IDLE_ST,          BTN_IDLE_ST,          BTN_IDLE_ST],
    [BTN_IDLE_ST,          BTN_IDLE_ST,          BTN_IDLE_ST,          BTN_IDLE_ST],
    [BTN_IDLE_ST,          BTN_PRESS_PRE_ST,     BTN_IDLE_ST,          BTN_PRESSED_EVT],
    [BTN_SHORT_RELEASE_ST, BTN_PRESS_AFT_ST,     BTN_S_RELEASED_EVT,   BTN_PRESS_AFT_ST],
    [BTN_LONG_RELEASE_ST,  BTN_HOLDING_ST,       BTN_L_RELEASED_EVT,   BTN_HOLDING_ST],
    [BTN_IDLE_ST,          BTN_PRESS_EVT,        BTN_IDLE_ST,          BTN_PRESSED_EVT],
    [BTN_S_RELEASE_EVT,    BTN_PRESS_AFT_ST,     BTN_S_RELEASE_EVT,    BTN_LONG_PRESSED_EVT],
    [BTN_L_RELEASE_EVT,    BTN_HOLDING_ST,       BTN_L_RELEASED_EVT,   BTN_HOLDING_ST] ]

/-- Table cell cg_aau8StateMachine[st][idx].  Indices outside the 13 x 4
table are undefined behavior in the source; the model returns 0 there. -/
def cgLookup (st idx : Nat) : Nat :=
  (cg_aau8StateMachine.getD st []).getD idx 0

/-- The time-out comparison of Btn_Channel_Process (lines 406 and 413):
u8TmOut = ((sg_pfGetTm() - anchor) >= threshold).  All three operands have
type uint16 (unsigned short); on the 32-bit target of this repository
(the demo drives a Kinetis KL25) the usual arithmetic conversions promote
them to int, so the subtraction is a plain signed difference that does NOT
wrap modulo 2^16. -/
def tmElapsed (now anchor threshold : Nat) : Bool :=
  decide ((threshold : Int) ≤ (now : Int) - (anchor : Int))

/-- Modelled from the spec: the elapsed duration the specification
prescribes for the timeout checks, (now - anchor) taken modulo the 16-bit
width of the timestamp.  Kept separate from tmElapsed so the two
arithmetics can be compared. -/
def elapsedModSpec (now anchor : Nat) : Nat :=
  (now + 2 ^ 16 - anchor % 2 ^ 16) % 2 ^ 16

/-- The tail of Btn_Channel_Process (lines 422-438): compute the trigger
index u8NextSt from the sampled level and the time-out flag, then apply
the state transition.  The result pair is (caller record, new runtime). -/
def finishStep (ptBtnPara : T_BTN_PARA) (btnSt : T_BTN_ST) (res : T_BTN_RESULT)
    (u8TmOut : Bool) (u8BtnSt : Nat) : T_BTN_RESULT × T_BTN_ST :=
  let u8NextSt : Nat :=
    (if u8BtnSt ≠ ptBtnPara.u8NormalSt then 1 else 0) +
    (if u8TmOut then BTN_TM_TRG_EVT_OFFSET else 0)
  (res, { btnSt with u8BtnSt := cgLookup btnSt.u8BtnSt u8NextSt })

/-- The body of Btn_Channel_Process after the level was read successfully
(src/Btn_SM_Module.c lines 355-438): the per-state operations, the
time-out checks and the state transition.  now is the value sg_pfGetTm
returns during this call; u8BtnSt is the sampled level. -/
def processCore (ptBtnPara : T_BTN_PARA) (btnSt : T_BTN_ST) (now u8BtnSt : Nat) :
    T_BTN_RESULT × T_BTN_ST :=
  let st := btnSt.u8BtnSt
  if st < BTN_PRESS_PRE_ST then
    if st < BTN_PRESSED_EVT then
      finishStep ptBtnPara { btnSt with u16DebounceOldTm := now }
        { u8Evt := BTN_NONE_EVT, u8State := cgLookup st 0 } false u8BtnSt
    else
      finishStep ptBtnPara
        (if st = BTN_PRESSED_EVT then { btnSt with u16LongPressOldTm := now } else btnSt)
        { u8Evt := st, u8State := cgLookup st 0 } false u8BtnSt
  else if st < BTN_IDLE_ST then
    finishStep ptBtnPara btnSt
      { u8Evt := BTN_NONE_EVT, u8State := st + BTN_GO_BACK_OFFSET }
      (tmElapsed now btnSt.u16DebounceOldTm ptBtnPara.u16DebounceTm) u8BtnSt
  else if st = BTN_PRESS_AFT_ST then
    finishStep ptBtnPara btnSt
      { u8Evt := BTN_NONE_EVT, u8State := st }
      (tmElapsed now btnSt.u16LongPressOldTm ptBtnPara.u16LongPressTm) u8BtnSt
  else
    finishStep ptBtnPara btnSt
      { u8Evt := BTN_NONE_EVT, u8State := st } false u8BtnSt

/-- The static per-channel storage of the module: sg_aptBtnPara (parameter
pointers, none = NULL) and sg_atBtnSt (running status), lines 76-77. -/
structure BtnModule where
  sg_aptBtnPara : Fin MAX_BTN_CH → Option T_BTN_PARA
  sg_atBtnSt : Fin MAX_BTN_CH → T_BTN_ST

/-- The array index of channel number 1. -/
def i0 : Fin MAX_BTN_CH := ⟨0, Nat.zero_lt_succ 2⟩

/-- Btn_Channel_Process once the channel index is known valid: the enable
gate, the level read and the core (lines 333-438).  Returns none exactly
when the source dereferences a NULL parameter pointer (undefined
behavior); otherwise some (return code, record written for the caller,
updated module state). -/
def processRegistered (m : BtnModule) (getBtn : Nat → Nat) (now : Nat)
    (i : Fin MAX_BTN_CH) : Option (Nat × Option T_BTN_RESULT × BtnModule) :=
  match m.sg_aptBtnPara i with
  | none => none
  | some ptBtnPara =>
    if ptBtnPara.u8BtnEn ≠ BTN_FUNC_ENABLE then
      some (SUCCESS, some { u8Evt := BTN_NONE_EVT, u8State := BTN_DIS_ST }, m)
    else
      let u8BtnSt := getBtn (i.val + 1)
      if u8BtnSt = BTN_ERROR then
        some (BTN_ERROR, none, m)
      else
        let r := processCore ptBtnPara (m.sg_atBtnSt i) now u8BtnSt
        some (SUCCESS, some r.1,
          { m with sg_atBtnSt := Function.update m.sg_atBtnSt i r.2 })

/-- Btn_Channel_Process (src/Btn_SM_Module.c lines 318-439).  The channel
range check of lines 328-331 comes first; for a valid channel the work is
processRegistered.  now is the timestamp sg_pfGetTm yields during the
call, getBtn the registered level source sg_pfGetBtnSt. -/
def Btn_Channel_Process (m : BtnModule) (getBtn : Nat → Nat) (now u8Ch : Nat) :
    Option (Nat × Option T_BTN_RESULT × BtnModule) :=
  if h : u8Ch = 0 ∨ MAX_BTN_CH < u8Ch then
    some (BTN_ERROR, none, m)
  else
    processRegistered m getBtn now
      ⟨u8Ch - 1, by simp [MAX_BTN_CH] at h ⊢; omega⟩

/-- Btn_Func_En_Dis (src/Btn_SM_Module.c lines 100-104): write the enable
flag through the parameter pointer of channel u8Ch and reset its state
machine to BTN_IDLE_ST.  The source performs no range check; the uint8
index u8Ch - 1 wraps modulo 256, and an out-of-bounds access or a NULL
parameter pointer is undefined behavior, modelled as none. -/
def Btn_Func_En_Dis (m : BtnModule) (u8Ch u8EnDis : Nat) : Option BtnModule :=
  let idx := (u8Ch % 256 + 255) % 256
  if h : idx < MAX_BTN_CH then
    let i : Fin MAX_BTN_CH := ⟨idx, h⟩
    match m.sg_aptBtnPara i with
    | none => none
    | some ptBtnPara =>
      some { m with
        sg_aptBtnPara :=
          Function.update m.sg_aptBtnPara i (some { ptBtnPara with u8BtnEn := u8EnDis }),
        sg_atBtnSt :=
          Function.update m.sg_atBtnSt i { m.sg_atBtnSt i with u8BtnSt := BTN_IDLE_ST } }
  else none

/-- The two interface function pointers held by the module (lines 78-82),
NULL modelled as none and distinct non-NULL pointers as distinct Nat
identifiers. -/
structure BtnGeneral where
  sg_pfGetTm : Option Nat
  sg_pfGetBtnSt : Option Nat
deriving DecidableEq, Repr

/-- Btn_General_Init (src/Btn_SM_Module.c lines 125-161), with the
__BTN_SM_SPECIFIED_BTN_ST_FN branch compiled out as in Btn_SM_Config.h:
validate each pointer, register it only if the corresponding slot is
still NULL, never re-register. -/
def Btn_General_Init (g : BtnGeneral) (pfGetTm pfGetBtnSt : Option Nat) :
    Nat × BtnGeneral :=
  if pfGetTm = none then
    (BTN_ERROR, g)
  else
    let g1 := if g.sg_pfGetTm = none then { g with sg_pfGetTm := pfGetTm } else g
    if pfGetBtnSt = none then
      (BTN_ERROR, g1)
    else
      let g2 :=
        if g1.sg_pfGetBtnSt = none then { g1 with sg_pfGetBtnSt := pfGetBtnSt } else g1
      (SUCCESS, g2)

/-- The situation index exactly as claim C8 words it: 1 when the raw level
differs from the normal level, plus 2 when the relevant timer has elapsed,
the relevant timer being the debounce timer in the three debounce-wait
states, the long-press timer in BTN_PRESS_AFT_ST, and treated as not
elapsed in every other state. -/
def situationSpec (ptBtnPara : T_BTN_PARA) (btnSt : T_BTN_ST) (now lvl : Nat) : Nat :=
  (if lvl ≠ ptBtnPara.u8NormalSt then 1 else 0) +
  (if (if BTN_PRESS_PRE_ST ≤ btnSt.u8BtnSt ∧ btnSt.u8BtnSt < BTN_IDLE_ST then
         tmElapsed now btnSt.u16DebounceOldTm ptBtnPara.u16DebounceTm
       else if btnSt.u8BtnSt = BTN_PRESS_AFT_ST then
         tmElapsed now btnSt.u16LongPressOldTm ptBtnPara.u16LongPressTm
       else false) then 2 else 0)

/-! Concrete input fixtures used by the counterexamples and witnesses
below. -/

/-- A module in which no channel has been registered: every parameter
pointer is NULL, every running status is the initial one. -/
def c5_mod : BtnModule :=
  { sg_aptBtnPara := fun _ => none,
    sg_atBtnSt := fun _ => ⟨0, 0, BTN_IDLE_ST⟩ }

/-- A registered, enabled single-parameter module used as the C6 witness
input. -/
def c6_mod : BtnModule :=
  { sg_aptBtnPara := fun _ => some ⟨1000, 50, BTN_FUNC_ENABLE, 0, 1⟩,
    sg_atBtnSt := fun _ => ⟨0, 0, BTN_IDLE_ST⟩ }

/-- A registered module whose single parameter record is disabled and
whose runtime sits mid-press, used as the C7 witness input. -/
def c7_mod : BtnModule :=
  { sg_aptBtnPara := fun _ => some ⟨1000, 50, BTN_FUNC_DISABLE, 0, 1⟩,
    sg_atBtnSt := fun _ => ⟨40, 30, BTN_PRESS_AFT_ST⟩ }

/-- Configuration used by the C2 input runs: enabled, normal level 0,
debounce 50, long press 1000. -/
def c2_para : T_BTN_PARA := ⟨1000, 50, BTN_FUNC_ENABLE, 0, 1⟩

/-- Module with channel 1 registered on c2_para and every channel idle. -/
def c2_mod : BtnModule :=
  { sg_aptBtnPara := fun _ => some c2_para,
    sg_atBtnSt := fun _ => ⟨0, 0, BTN_IDLE_ST⟩ }

/-- Level source holding every channel at the pressed level 1. -/
def c2_lvl : Nat → Nat := fun _ => 1

/-- The module after one poll of channel 1 of c2_mod under c2_lvl: the
FSM has moved from BTN_IDLE_ST to the transient BTN_PRESS_EVT. -/
def c2_mod1 : BtnModule :=
  { c2_mod with
    sg_atBtnSt :=
      Function.update c2_mod.sg_atBtnSt i0 ⟨0, 0, BTN_PRESS_EVT⟩ }

/-- Parameter record for the C8 witness run. -/
def c8_para : T_BTN_PARA := ⟨1000, 50, BTN_FUNC_ENABLE, 0, 1⟩

/-- Module for the C8 witness run: channel 1 registered, idle. -/
def c8_mod : BtnModule :=
  { sg_aptBtnPara := fun _ => some c8_para,
    sg_atBtnSt := fun _ => ⟨0, 0, BTN_IDLE_ST⟩ }

/-- Parameter record for the C4 failing input: debounce 50 time units. -/
def c4_para : T_BTN_PARA := ⟨1000, 50, BTN_FUNC_ENABLE, 0, 1⟩

/-- Runtime for the C4 failing input: in the debounce-wait state
BTN_PRESS_PRE_ST with the debounce anchor at 65500, shortly before the
16-bit time source rolls over. -/
def c4_st : T_BTN_ST := ⟨65500, 0, BTN_PRESS_PRE_ST⟩

/-- Configuration for the C3 input runs. -/
def c3_para : T_BTN_PARA := ⟨1000, 50, BTN_FUNC_ENABLE, 0, 1⟩

/-- Module with channel 1 registered on c3_para, idle. -/
def c3_mod : BtnModule :=
  { sg_aptBtnPara := fun _ => some c3_para,
    sg_atBtnSt := fun _ => ⟨0, 0, BTN_IDLE_ST⟩ }

/-- Level source pressing every channel. -/
def c3_lvl : Nat → Nat := fun _ => 1

/-- c3_mod after one poll with the button pressed: channel 1 has moved to
the transient BTN_PRESS_EVT state. -/
def c3_mod1 : BtnModule :=
  { c3_mod with
    sg_atBtnSt :=
      Function.update c3_mod.sg_atBtnSt i0 ⟨0, 0, BTN_PRESS_EVT⟩ }

/-- Level source that keeps every channel at the normal level 0, used by
the C3 witness. -/
def c3w_lvl : Nat → Nat := fun _ => 0

/-- The module the C3 witness run produces: the idle record is written
back unchanged. -/
def c3w_mod2 : BtnModule :=
  { c3_mod with
    sg_atBtnSt :=
      Function.update c3_mod.sg_atBtnSt i0 ⟨0, 0, BTN_IDLE_ST⟩ }

/-- Configuration for the C1 runs: debounce time zero, long press 1000,
enabled, normal level 0. -/
def c1_para : T_BTN_PARA := ⟨1000, 0, BTN_FUNC_ENABLE, 0, 1⟩

/-- Module with channel 1 registered on c1_para, idle. -/
def c1_mod : BtnModule :=
  { sg_aptBtnPara := fun _ => some c1_para,
    sg_atBtnSt := fun _ => ⟨0, 0, BTN_IDLE_ST⟩ }

/-- Level source pressing every channel, for the C1 runs. -/
def c1_lvl : Nat → Nat := fun _ => 1

/-- c1_mod after the first pressed poll: channel 1 in BTN_PRESS_EVT. -/
def c1_mod1 : BtnModule :=
  { c1_mod with
    sg_atBtnSt :=
      Function.update c1_mod.sg_atBtnSt i0 ⟨0, 0, BTN_PRESS_EVT⟩ }

/-- Configuration for the C9 witness: enabled, normal 0. -/
def c9_para : T_BTN_PARA := ⟨1000, 50, BTN_FUNC_ENABLE, 0, 1⟩

/-- Module for the C9 witness: channel 1 registered and resting mid-press
in BTN_PRESS_AFT_ST with nonzero anchors. -/
def c9_mod : BtnModule :=
  { sg_aptBtnPara := fun _ => some c9_para,
    sg_atBtnSt := fun _ => ⟨20, 30, BTN_PRESS_AFT_ST⟩ }

/-! Helper lemmas about the embedding. -/

/-- For a channel number of the form i + 1 with i below MAX_BTN_CH, the
range check of Btn_Channel_Process passes and the call is handled by
processRegistered at index i. -/
theorem process_at_valid (m : BtnModule) (f : Nat → Nat) (now : Nat)
    (i : Fin MAX_BTN_CH) :
    Btn_Channel_Process m f now (i.val + 1) = processRegistered m f now i := by
  have hi := i.isLt
  have hcond : ¬(i.val + 1 = 0 ∨ MAX_BTN_CH < i.val + 1) := by
    push_neg
    exact ⟨by omega, by omega⟩
  unfold Btn_Channel_Process
  rw [dif_neg hcond]
  exact congrArg (processRegistered m f now) (Fin.ext (by simp))

/-- The caller record handed back by finishStep is the one passed in. -/
theorem finishStep_fst (p : T_BTN_PARA) (b : T_BTN_ST) (r : T_BTN_RESULT)
    (t : Bool) (l : Nat) : (finishStep p b r t l).1 = r := rfl

/-! Claim C5: channel validation. -/

/-- Claim C5, counterexample: channel 1 is inside 1..MAX_BTN_CH but has no
registered configuration, and Btn_Channel_Process does not return an error
result for it: the source dereferences the NULL parameter pointer
(undefined behavior, modelled as none) before any registration check. -/
theorem c5_counterexample :
    Btn_Channel_Process c5_mod (fun _ => 0) 0 1 = none ∧
    (1 : Nat) ≠ 0 ∧ ¬ MAX_BTN_CH < 1 :=
  ⟨rfl, by decide, by decide⟩

/-- Claim C5 (amended): only a channel id outside 1..MAX_BTN_CH makes
Btn_Channel_Process return BTN_ERROR with no mutation; an in-range id
whose channel is unregistered is not detected. -/
theorem c5_range_error (m : BtnModule) (f : Nat → Nat) (now u8Ch : Nat)
    (h : u8Ch = 0 ∨ MAX_BTN_CH < u8Ch) :
    Btn_Channel_Process m f now u8Ch = some (BTN_ERROR, none, m) := by
  unfold Btn_Channel_Process
  rw [dif_pos h]

/-- Witness for c5_range_error at channel 4 of the unregistered module. -/
theorem c5_witness :
    Btn_Channel_Process c5_mod (fun _ => 0) 0 4 = some (BTN_ERROR, none, c5_mod) :=
  c5_range_error c5_mod (fun _ => 0) 0 4 (by right; decide)

/-! Claim C6: level-source failure. -/

/-- Claim C6: for an enabled, registered channel whose level source
returns BTN_ERROR, Btn_Channel_Process returns BTN_ERROR, writes nothing
into the caller record, and leaves the module state (so in particular the
channel runtime record with its FSM state and both anchor times) exactly
as it was. -/
theorem c6_level_error (m : BtnModule) (f : Nat → Nat) (now : Nat)
    (i : Fin MAX_BTN_CH) (para : T_BTN_PARA)
    (hreg : m.sg_aptBtnPara i = some para)
    (hen : para.u8BtnEn = BTN_FUNC_ENABLE)
    (herr : f (i.val + 1) = BTN_ERROR) :
    Btn_Channel_Process m f now (i.val + 1) = some (BTN_ERROR, none, m) := by
  rw [process_at_valid]
  unfold processRegistered
  rw [hreg]
  simp [hen, herr]

/-- Witness for c6_level_error: a level source that always fails. -/
theorem c6_witness :
    Btn_Channel_Process c6_mod (fun _ => BTN_ERROR) 5 1 = some (BTN_ERROR, none, c6_mod) :=
  c6_level_error c6_mod (fun _ => BTN_ERROR) 5 i0
    ⟨1000, 50, BTN_FUNC_ENABLE, 0, 1⟩ rfl rfl rfl

/-! Claim C7: disabled channel. -/

/-- Claim C7: for a registered channel whose enable flag is
BTN_FUNC_DISABLE, Btn_Channel_Process returns SUCCESS with event
BTN_NONE_EVT and state BTN_DIS_ST, and leaves the module state (hence the
channel FSM state and both anchor times) unchanged. -/
theorem c7_disabled (m : BtnModule) (f : Nat → Nat) (now : Nat)
    (i : Fin MAX_BTN_CH) (para : T_BTN_PARA)
    (hreg : m.sg_aptBtnPara i = some para)
    (hdis : para.u8BtnEn = BTN_FUNC_DISABLE) :
    Btn_Channel_Process m f now (i.val + 1) =
      some (SUCCESS, some ⟨BTN_NONE_EVT, BTN_DIS_ST⟩, m) := by
  rw [process_at_valid]
  unfold processRegistered
  rw [hreg]
  simp [hdis, BTN_FUNC_DISABLE, BTN_FUNC_ENABLE]

/-- Witness for c7_disabled. -/
theorem c7_witness :
    Btn_Channel_Process c7_mod (fun _ => 1) 90 1 =
      some (SUCCESS, some ⟨BTN_NONE_EVT, BTN_DIS_ST⟩, c7_mod) :=
  c7_disabled c7_mod (fun _ => 1) 90 i0
    ⟨1000, 50, BTN_FUNC_DISABLE, 0, 1⟩ rfl rfl

/-! Claim C2: the set of state codes handed to the caller. -/

/-- On the main path, the state the core writes into the caller record is
one of the three debounce-wait codes or one of the three stable codes. -/
theorem processCore_state_mem (p : T_BTN_PARA) (s : T_BTN_ST) (now lvl : Nat)
    (h : s.u8BtnSt ≤ BTN_HOLDING_ST) :
    (processCore p s now lvl).1.u8State = BTN_PRESS_PRE_ST ∨
    (processCore p s now lvl).1.u8State = BTN_SHORT_RELEASE_ST ∨
    (processCore p s now lvl).1.u8State = BTN_LONG_RELEASE_ST ∨
    (processCore p s now lvl).1.u8State = BTN_IDLE_ST ∨
    (processCore p s now lvl).1.u8State = BTN_PRESS_AFT_ST ∨
    (processCore p s now lvl).1.u8State = BTN_HOLDING_ST := by
  obtain ⟨d, lp, st⟩ := s
  have h2 : st ≤ 12 := h
  interval_cases st <;>
    simp [processCore, finishStep, cgLookup, cg_aau8StateMachine,
      BTN_PRESS_PRE_ST, BTN_SHORT_RELEASE_ST, BTN_LONG_RELEASE_ST,
      BTN_IDLE_ST, BTN_PRESS_AFT_ST, BTN_HOLDING_ST, BTN_PRESSED_EVT,
      BTN_GO_BACK_OFFSET, BTN_NONE_EVT]

/-- As processCore_state_mem but for the whole call, with the disabled
code BTN_DIS_ST added. -/
theorem processRegistered_state_mem (m : BtnModule) (f : Nat → Nat)
    (now : Nat) (i : Fin MAX_BTN_CH) (code : Nat) (res : T_BTN_RESULT)
    (m2 : BtnModule)
    (hst : (m.sg_atBtnSt i).u8BtnSt ≤ BTN_HOLDING_ST)
    (h : processRegistered m f now i = some (code, some res, m2)) :
    res.u8State = BTN_PRESS_PRE_ST ∨ res.u8State = BTN_SHORT_RELEASE_ST ∨
    res.u8State = BTN_LONG_RELEASE_ST ∨ res.u8State = BTN_IDLE_ST ∨
    res.u8State = BTN_PRESS_AFT_ST ∨ res.u8State = BTN_HOLDING_ST ∨
    res.u8State = BTN_DIS_ST := by
  rcases hpa : m.sg_aptBtnPara i with _ | para
  · unfold processRegistered at h
    rw [hpa] at h
    simp at h
  · unfold processRegistered at h
    rw [hpa] at h
    dsimp only at h
    by_cases hen : para.u8BtnEn ≠ BTN_FUNC_ENABLE
    · rw [if_pos hen] at h
      simp at h
      obtain ⟨_, hres, _⟩ := h
      rw [← hres]
      simp
    · rw [if_neg hen] at h
      by_cases hlv : f (i.val + 1) = BTN_ERROR
      · rw [if_pos hlv] at h
        simp at h
      · rw [if_neg hlv] at h
        simp only [Option.some.injEq, Prod.mk.injEq] at h
        obtain ⟨_, hres, _⟩ := h
        rw [← hres]
        have hmem := processCore_state_mem para (m.sg_atBtnSt i) now (f (i.val + 1)) hst
        tauto

/-- Claim C2 (amended): any call of Btn_Channel_Process that writes a
result record reports a state from seven codes, the four stable or
disabled codes BTN_IDLE_ST, BTN_PRESS_AFT_ST, BTN_HOLDING_ST, BTN_DIS_ST
and the three debounce-wait codes BTN_PRESS_PRE_ST, BTN_SHORT_RELEASE_ST,
BTN_LONG_RELEASE_ST; transient-event codes never appear. -/
theorem c2_result_states (m : BtnModule) (f : Nat → Nat) (now u8Ch code : Nat)
    (res : T_BTN_RESULT) (m2 : BtnModule)
    (hst : ∀ i : Fin MAX_BTN_CH, (m.sg_atBtnSt i).u8BtnSt ≤ BTN_HOLDING_ST)
    (h : Btn_Channel_Process m f now u8Ch = some (code, some res, m2)) :
    res.u8State = BTN_PRESS_PRE_ST ∨ res.u8State = BTN_SHORT_RELEASE_ST ∨
    res.u8State = BTN_LONG_RELEASE_ST ∨ res.u8State = BTN_IDLE_ST ∨
    res.u8State = BTN_PRESS_AFT_ST ∨ res.u8State = BTN_HOLDING_ST ∨
    res.u8State = BTN_DIS_ST := by
  by_cases hch : u8Ch = 0 ∨ MAX_BTN_CH < u8Ch
  · unfold Btn_Channel_Process at h
    rw [dif_pos hch] at h
    simp at h
  · unfold Btn_Channel_Process at h
    rw [dif_neg hch] at h
    exact processRegistered_state_mem m f now _ code res m2 (hst _) h

/-- Claim C2, counterexample: from idle with the button pressed, the first
poll moves the FSM to BTN_PRESS_EVT, and the second poll then hands the
caller the debounce-wait code BTN_PRESS_PRE_ST as its result state, which
is none of the four values the claim allows. -/
theorem c2_counterexample :
    Btn_Channel_Process c2_mod c2_lvl 5 1 =
      some (SUCCESS, some ⟨BTN_NONE_EVT, BTN_IDLE_ST⟩, c2_mod1) ∧
    (Btn_Channel_Process c2_mod1 c2_lvl 6 1).map
        (fun r => r.2.1.map T_BTN_RESULT.u8State) =
      some (some BTN_PRESS_PRE_ST) ∧
    BTN_PRESS_PRE_ST ≠ BTN_IDLE_ST ∧ BTN_PRESS_PRE_ST ≠ BTN_PRESS_AFT_ST ∧
    BTN_PRESS_PRE_ST ≠ BTN_HOLDING_ST ∧ BTN_PRESS_PRE_ST ≠ BTN_DIS_ST :=
  ⟨rfl, rfl, by decide, by decide, by decide, by decide⟩

/-- Witness for c2_result_states on a concrete idle poll. -/
theorem c2_witness :
    (⟨BTN_NONE_EVT, BTN_IDLE_ST⟩ : T_BTN_RESULT).u8State = BTN_PRESS_PRE_ST ∨
    (⟨BTN_NONE_EVT, BTN_IDLE_ST⟩ : T_BTN_RESULT).u8State = BTN_SHORT_RELEASE_ST ∨
    (⟨BTN_NONE_EVT, BTN_IDLE_ST⟩ : T_BTN_RESULT).u8State = BTN_LONG_RELEASE_ST ∨
    (⟨BTN_NONE_EVT, BTN_IDLE_ST⟩ : T_BTN_RESULT).u8State = BTN_IDLE_ST ∨
    (⟨BTN_NONE_EVT, BTN_IDLE_ST⟩ : T_BTN_RESULT).u8State = BTN_PRESS_AFT_ST ∨
    (⟨BTN_NONE_EVT, BTN_IDLE_ST⟩ : T_BTN_RESULT).u8State = BTN_HOLDING_ST ∨
    (⟨BTN_NONE_EVT, BTN_IDLE_ST⟩ : T_BTN_RESULT).u8State = BTN_DIS_ST :=
  c2_result_states c2_mod c2_lvl 5 1 SUCCESS ⟨BTN_NONE_EVT, BTN_IDLE_ST⟩ c2_mod1
    (fun _ => of_decide_eq_true rfl) rfl

/-! Claim C8: the state advance is the table lookup at the situation. -/

/-- The FSM state the core writes back is always the transition-table cell
at the current state and the situation index described by claim C8. -/
theorem processCore_next (p : T_BTN_PARA) (s : T_BTN_ST) (now lvl : Nat) :
    (processCore p s now lvl).2.u8BtnSt =
      cgLookup s.u8BtnSt (situationSpec p s now lvl) := by
  obtain ⟨d, lp, st⟩ := s
  rcases Nat.lt_or_ge st 13 with hlt | hge
  · interval_cases st <;>
      simp [processCore, situationSpec, finishStep, BTN_PRESS_PRE_ST,
        BTN_PRESSED_EVT, BTN_IDLE_ST, BTN_PRESS_AFT_ST, BTN_NONE_EVT,
        BTN_GO_BACK_OFFSET, BTN_TM_TRG_EVT_OFFSET]
  · have h1 : ¬ st < BTN_PRESS_PRE_ST := by simp only [BTN_PRESS_PRE_ST]; omega
    have h2 : ¬ st < BTN_IDLE_ST := by simp only [BTN_IDLE_ST]; omega
    have h3 : st ≠ BTN_PRESS_AFT_ST := by simp only [BTN_PRESS_AFT_ST]; omega
    have h4 : ¬ (BTN_PRESS_PRE_ST ≤ st ∧ st < BTN_IDLE_ST) := by
      simp only [BTN_PRESS_PRE_ST, BTN_IDLE_ST, not_and, not_lt]
      omega
    simp [processCore, situationSpec, finishStep, h1, h2, h3, h4,
      BTN_TM_TRG_EVT_OFFSET]

/-- Claim C8: on a successful poll of an enabled registered channel, the
new FSM state stored in the channel runtime record equals
cg_aau8StateMachine[current][situation] with situation = one point for a
level away from normal plus two points for the relevant elapsed timer
(debounce timer in the debounce-wait states, long-press timer in
BTN_PRESS_AFT_ST, nothing elsewhere). -/
theorem c8_table_advance (m : BtnModule) (f : Nat → Nat) (now : Nat)
    (i : Fin MAX_BTN_CH) (para : T_BTN_PARA)
    (hreg : m.sg_aptBtnPara i = some para)
    (hen : para.u8BtnEn = BTN_FUNC_ENABLE)
    (hlvl : f (i.val + 1) ≠ BTN_ERROR) :
    (Btn_Channel_Process m f now (i.val + 1)).map
        (fun r => (r.2.2.sg_atBtnSt i).u8BtnSt) =
      some (cgLookup (m.sg_atBtnSt i).u8BtnSt
        (situationSpec para (m.sg_atBtnSt i) now (f (i.val + 1)))) := by
  rw [process_at_valid]
  unfold processRegistered
  rw [hreg]
  simp [hen, hlvl, Function.update_same, processCore_next]

/-- Witness for c8_table_advance on a concrete pressed idle poll. -/
theorem c8_witness :
    (Btn_Channel_Process c8_mod (fun _ => 1) 5 1).map
        (fun r => (r.2.2.sg_atBtnSt i0).u8BtnSt) =
      some (cgLookup (c8_mod.sg_atBtnSt i0).u8BtnSt
        (situationSpec c8_para (c8_mod.sg_atBtnSt i0) 5
          ((fun _ => 1) (0 + 1)))) :=
  c8_table_advance c8_mod (fun _ => 1) 5 i0 c8_para rfl rfl
    (by decide)

/-! Claim C4: timestamp wraparound arithmetic. -/

/-- Claim C4, divergence at the failing input anchor = 65500, now = 100,
threshold = 50: the specified modulo-2^16 elapsed duration is
65535 - 65500 + 100 + 1 = 136, which has reached the threshold, but the
timeout comparison of the engine evaluates the promoted signed difference
100 - 65500 < 0 and reports the timer as not elapsed, so the FSM stays in
BTN_PRESS_PRE_ST where the table cell for the timed-out situation would
have moved it to BTN_PRESSED_EVT. -/
theorem c4_wraparound_divergence :
    elapsedModSpec 100 65500 = 65535 - 65500 + 100 + 1 ∧
    50 ≤ elapsedModSpec 100 65500 ∧
    tmElapsed 100 65500 50 = false ∧
    (processCore c4_para c4_st 100 1).2.u8BtnSt = BTN_PRESS_PRE_ST ∧
    cgLookup BTN_PRESS_PRE_ST 3 = BTN_PRESSED_EVT := by
  refine ⟨by decide, by decide, by decide, by decide, by decide⟩

/-! Claim C3: repeated polling at one timestamp. -/

/-- If one run of the core leaves the runtime record unchanged, the event
it reported was BTN_NONE_EVT: events are only emitted from the transient
states 3..6, and every transient state moves somewhere else. -/
theorem processCore_evt_none_of_fix (p : T_BTN_PARA) (s : T_BTN_ST)
    (now lvl : Nat) (h : (processCore p s now lvl).2 = s) :
    (processCore p s now lvl).1.u8Evt = BTN_NONE_EVT := by
  obtain ⟨d, lp, st⟩ := s
  rcases Nat.lt_or_ge st 7 with h7 | h7
  · exfalso
    have hst := congrArg T_BTN_ST.u8BtnSt h
    rw [processCore_next] at hst
    dsimp only at hst
    have hsel : ¬ (BTN_PRESS_PRE_ST ≤ st ∧ st < BTN_IDLE_ST) := by
      simp only [BTN_PRESS_PRE_ST, BTN_IDLE_ST, not_and, not_lt]
      omega
    have h11 : st ≠ BTN_PRESS_AFT_ST := by simp only [BTN_PRESS_AFT_ST]; omega
    unfold situationSpec at hst
    simp only [hsel, h11] at hst
    interval_cases st <;> split_ifs at hst <;>
      simp [cgLookup, cg_aau8StateMachine, BTN_PRESS_PRE_ST,
        BTN_SHORT_RELEASE_ST, BTN_LONG_RELEASE_ST, BTN_PRESS_AFT_ST,
        BTN_HOLDING_ST, BTN_IDLE_ST] at hst
  · have h1 : ¬ st < BTN_PRESS_PRE_ST := by simp only [BTN_PRESS_PRE_ST]; omega
    by_cases h10 : st < BTN_IDLE_ST
    · simp [processCore, finishStep, h1, h10]
    · by_cases h11 : st = BTN_PRESS_AFT_ST
      · simp [processCore, finishStep, h1, h10, h11, BTN_PRESS_PRE_ST,
          BTN_PRESSED_EVT, BTN_IDLE_ST, BTN_PRESS_AFT_ST, BTN_NONE_EVT]
      · simp [processCore, finishStep, h1, h10, h11]

/-- Btn_Channel_Process on a registered, enabled channel with a valid
level sample: one equation giving the full result in terms of the core. -/
theorem process_step (m : BtnModule) (f : Nat → Nat) (now : Nat)
    (i : Fin MAX_BTN_CH) (para : T_BTN_PARA)
    (hreg : m.sg_aptBtnPara i = some para)
    (hen : para.u8BtnEn = BTN_FUNC_ENABLE)
    (hle : f (i.val + 1) ≠ BTN_ERROR) :
    Btn_Channel_Process m f now (i.val + 1) =
      some (SUCCESS,
        some (processCore para (m.sg_atBtnSt i) now (f (i.val + 1))).1,
        { m with sg_atBtnSt := Function.update m.sg_atBtnSt i (processCore para (m.sg_atBtnSt i) now (f (i.val + 1))).2 }) := by
  rw [process_at_valid]
  unfold processRegistered
  rw [hreg]
  simp [hen, hle]

/-- Claim C3 (amended): if a successful poll leaves the channel runtime
record unchanged, then the event it reported was BTN_NONE_EVT, and one
more poll at the same timestamp with the same level returns the same
result record and again leaves the channel runtime record unchanged. -/
theorem c3_idempotent_on_fixpoints (m : BtnModule) (f : Nat → Nat)
    (now : Nat) (i : Fin MAX_BTN_CH) (code : Nat) (res : T_BTN_RESULT)
    (m2 : BtnModule)
    (h : Btn_Channel_Process m f now (i.val + 1) = some (code, some res, m2))
    (hfix : m2.sg_atBtnSt i = m.sg_atBtnSt i) :
    res.u8Evt = BTN_NONE_EVT ∧
    ∃ res2 m3,
      Btn_Channel_Process m2 f now (i.val + 1) = some (code, some res2, m3) ∧
      res2 = res ∧ m3.sg_atBtnSt i = m2.sg_atBtnSt i := by
  rw [process_at_valid] at h
  rcases hpa : m.sg_aptBtnPara i with _ | para
  · unfold processRegistered at h
    rw [hpa] at h
    simp at h
  · unfold processRegistered at h
    rw [hpa] at h
    dsimp only at h
    by_cases hen : para.u8BtnEn ≠ BTN_FUNC_ENABLE
    · rw [if_pos hen] at h
      simp only [Option.some.injEq, Prod.mk.injEq] at h
      obtain ⟨hcode, hres, hm⟩ := h
      subst hcode
      subst hm
      rw [← hres]
      refine ⟨rfl, ⟨BTN_NONE_EVT, BTN_DIS_ST⟩, m, ?_, rfl, rfl⟩
      rw [process_at_valid]
      unfold processRegistered
      rw [hpa]
      simp [hen]
    · rw [if_neg hen] at h
      by_cases hlv : f (i.val + 1) = BTN_ERROR
      · rw [if_pos hlv] at h
        simp at h
      · rw [if_neg hlv] at h
        simp only [Option.some.injEq, Prod.mk.injEq] at h
        obtain ⟨hcode, hres, hm⟩ := h
        subst hcode
        subst hres
        have hpa2 : m2.sg_aptBtnPara i = some para := by
          rw [← hm]
          exact hpa
        have hcore : (processCore para (m.sg_atBtnSt i) now (f (i.val + 1))).2 =
            m.sg_atBtnSt i := by
          rw [← hm] at hfix
          simpa [Function.update_same] using hfix
        constructor
        · exact processCore_evt_none_of_fix para (m.sg_atBtnSt i) now
            (f (i.val + 1)) hcore
        · refine ⟨(processCore para (m.sg_atBtnSt i) now (f (i.val + 1))).1,
            { m2 with sg_atBtnSt := Function.update m2.sg_atBtnSt i (processCore para (m.sg_atBtnSt i) now (f (i.val + 1))).2 },
            ?_, rfl, ?_⟩
          · rw [process_at_valid]
            unfold processRegistered
            rw [hpa2]
            dsimp only
            rw [if_neg hen, if_neg hlv, hfix]
          · dsimp only
            rw [Function.update_same, hcore, ← hfix]

/-- Claim C3, counterexample: polling channel 1 of the idle module twice
at the same timestamp 5 with the same pressed level moves the FSM state
from BTN_IDLE_ST to BTN_PRESS_EVT on the first call and on to
BTN_PRESS_PRE_ST on the second call, so the second call does change the
state beyond what the first call left. -/
theorem c3_counterexample :
    Btn_Channel_Process c3_mod c3_lvl 5 1 =
      some (SUCCESS, some ⟨BTN_NONE_EVT, BTN_IDLE_ST⟩, c3_mod1) ∧
    (c3_mod1.sg_atBtnSt i0).u8BtnSt = BTN_PRESS_EVT ∧
    (Btn_Channel_Process c3_mod1 c3_lvl 5 1).map
        (fun r => (r.2.2.sg_atBtnSt i0).u8BtnSt) =
      some BTN_PRESS_PRE_ST ∧
    BTN_PRESS_EVT ≠ BTN_PRESS_PRE_ST :=
  ⟨rfl, rfl, rfl, by decide⟩

/-- Witness for c3_idempotent_on_fixpoints: an idle, unpressed poll. -/
theorem c3_witness :
    (⟨BTN_NONE_EVT, BTN_IDLE_ST⟩ : T_BTN_RESULT).u8Evt = BTN_NONE_EVT ∧
    ∃ res2 m3,
      Btn_Channel_Process c3w_mod2 c3w_lvl 7 1 = some (SUCCESS, some res2, m3) ∧
      res2 = ⟨BTN_NONE_EVT, BTN_IDLE_ST⟩ ∧
      m3.sg_atBtnSt i0 = c3w_mod2.sg_atBtnSt i0 :=
  c3_idempotent_on_fixpoints c3_mod c3w_lvl 7 i0 SUCCESS
    ⟨BTN_NONE_EVT, BTN_IDLE_ST⟩ c3w_mod2 rfl rfl

/-! Claim C1: a press with debounce_duration = 0. -/

/-- One core step from BTN_IDLE_ST with the level away from normal:
event BTN_NONE_EVT, reported state BTN_IDLE_ST, FSM to BTN_PRESS_EVT. -/
theorem processCore_at_idle (p : T_BTN_PARA) (s : T_BTN_ST) (now lvl : Nat)
    (hst : s.u8BtnSt = BTN_IDLE_ST) (hl : lvl ≠ p.u8NormalSt) :
    processCore p s now lvl =
      (⟨BTN_NONE_EVT, BTN_IDLE_ST⟩, { s with u8BtnSt := BTN_PRESS_EVT }) := by
  simp [processCore, finishStep, hst, hl, cgLookup, cg_aau8StateMachine,
    BTN_IDLE_ST, BTN_PRESS_PRE_ST, BTN_PRESS_AFT_ST, BTN_NONE_EVT,
    BTN_PRESS_EVT, BTN_TM_TRG_EVT_OFFSET]

/-- One core step from the transient BTN_PRESS_EVT state with the level
still away from normal: the debounce anchor is armed with the current
time, the caller sees event BTN_NONE_EVT but state BTN_PRESS_PRE_ST, and
the FSM moves to BTN_PRESS_PRE_ST. -/
theorem processCore_at_press_evt (p : T_BTN_PARA) (s : T_BTN_ST) (now lvl : Nat)
    (hst : s.u8BtnSt = BTN_PRESS_EVT) (hl : lvl ≠ p.u8NormalSt) :
    processCore p s now lvl =
      (⟨BTN_NONE_EVT, BTN_PRESS_PRE_ST⟩,
        ⟨now, s.u16LongPressOldTm, BTN_PRESS_PRE_ST⟩) := by
  simp [processCore, finishStep, hst, hl, cgLookup, cg_aau8StateMachine,
    BTN_PRESS_EVT, BTN_PRESS_PRE_ST, BTN_PRESSED_EVT, BTN_NONE_EVT,
    BTN_TM_TRG_EVT_OFFSET]

/-- One core step from the debounce-wait BTN_PRESS_PRE_ST state with the
level still away from normal and the debounce timer elapsed (here because
the threshold is zero and time did not run backwards): the caller sees
event BTN_NONE_EVT and the normalized state BTN_IDLE_ST, and the FSM
moves to the transient BTN_PRESSED_EVT state. -/
theorem processCore_at_press_pre_tmout (p : T_BTN_PARA) (s : T_BTN_ST)
    (now lvl : Nat) (hst : s.u8BtnSt = BTN_PRESS_PRE_ST)
    (hl : lvl ≠ p.u8NormalSt) (hdeb : p.u16DebounceTm = 0)
    (hnow : s.u16DebounceOldTm ≤ now) :
    processCore p s now lvl =
      (⟨BTN_NONE_EVT, BTN_IDLE_ST⟩, { s with u8BtnSt := BTN_PRESSED_EVT }) := by
  have htm : tmElapsed now s.u16DebounceOldTm p.u16DebounceTm = true := by
    simp only [tmElapsed, hdeb, decide_eq_true_eq, Nat.cast_zero]
    omega
  simp [processCore, finishStep, hst, hl, htm, cgLookup, cg_aau8StateMachine,
    BTN_PRESS_PRE_ST, BTN_IDLE_ST, BTN_PRESS_AFT_ST, BTN_PRESSED_EVT,
    BTN_NONE_EVT, BTN_GO_BACK_OFFSET, BTN_TM_TRG_EVT_OFFSET]

/-- One core step from the transient BTN_PRESSED_EVT state with the level
still away from normal: the long-press anchor is armed with the current
time, the caller receives event BTN_PRESSED_EVT and state
BTN_PRESS_AFT_ST, and the FSM moves to BTN_PRESS_AFT_ST. -/
theorem processCore_at_pressed_evt (p : T_BTN_PARA) (s : T_BTN_ST)
    (now lvl : Nat) (hst : s.u8BtnSt = BTN_PRESSED_EVT)
    (hl : lvl ≠ p.u8NormalSt) :
    processCore p s now lvl =
      (⟨BTN_PRESSED_EVT, BTN_PRESS_AFT_ST⟩,
        ⟨s.u16DebounceOldTm, now, BTN_PRESS_AFT_ST⟩) := by
  simp [processCore, finishStep, hst, hl, cgLookup, cg_aau8StateMachine,
    BTN_PRESSED_EVT, BTN_PRESS_PRE_ST, BTN_PRESS_AFT_ST, BTN_NONE_EVT,
    BTN_TM_TRG_EVT_OFFSET]

/-- Claim C1 (amended): with debounce_duration = 0 the Pressed event does
not fire on the poll at which the level change is observed; the machine
still needs four polls.  With the level held away from normal and time
non-decreasing between the second and third poll, poll 1 (from Idle),
poll 2 and poll 3 return event BTN_NONE_EVT, poll 2 even reports the
debounce-wait code BTN_PRESS_PRE_ST as its state, and only poll 4 returns
event BTN_PRESSED_EVT with state BTN_PRESS_AFT_ST. -/
theorem c1_pressed_on_fourth_poll (m : BtnModule) (f : Nat → Nat)
    (t1 t2 t3 t4 : Nat) (i : Fin MAX_BTN_CH) (para : T_BTN_PARA)
    (hreg : m.sg_aptBtnPara i = some para)
    (hen : para.u8BtnEn = BTN_FUNC_ENABLE)
    (hdeb : para.u16DebounceTm = 0)
    (hst : (m.sg_atBtnSt i).u8BtnSt = BTN_IDLE_ST)
    (hl : f (i.val + 1) ≠ para.u8NormalSt)
    (hle : f (i.val + 1) ≠ BTN_ERROR)
    (ht : t2 ≤ t3) :
    ∃ m1 m2 m3 m4,
      Btn_Channel_Process m f t1 (i.val + 1) =
        some (SUCCESS, some ⟨BTN_NONE_EVT, BTN_IDLE_ST⟩, m1) ∧
      Btn_Channel_Process m1 f t2 (i.val + 1) =
        some (SUCCESS, some ⟨BTN_NONE_EVT, BTN_PRESS_PRE_ST⟩, m2) ∧
      Btn_Channel_Process m2 f t3 (i.val + 1) =
        some (SUCCESS, some ⟨BTN_NONE_EVT, BTN_IDLE_ST⟩, m3) ∧
      Btn_Channel_Process m3 f t4 (i.val + 1) =
        some (SUCCESS, some ⟨BTN_PRESSED_EVT, BTN_PRESS_AFT_ST⟩, m4) ∧
      (m4.sg_atBtnSt i).u8BtnSt = BTN_PRESS_AFT_ST ∧
      BTN_NONE_EVT ≠ BTN_PRESSED_EVT := by
  have h1 := process_step m f t1 i para hreg hen hle
  rw [processCore_at_idle para (m.sg_atBtnSt i) t1 (f (i.val + 1)) hst hl] at h1
  set m1 : BtnModule :=
    { m with sg_atBtnSt := Function.update m.sg_atBtnSt i { m.sg_atBtnSt i with u8BtnSt := BTN_PRESS_EVT } } with hm1
  have hreg1 : m1.sg_aptBtnPara i = some para := hreg
  have hst1 : m1.sg_atBtnSt i = { m.sg_atBtnSt i with u8BtnSt := BTN_PRESS_EVT } :=
    Function.update_same i _ _
  have h2 := process_step m1 f t2 i para hreg1 hen hle
  rw [processCore_at_press_evt para (m1.sg_atBtnSt i) t2 (f (i.val + 1))
    (by rw [hst1]) hl] at h2
  set m2 : BtnModule :=
    { m1 with sg_atBtnSt := Function.update m1.sg_atBtnSt i ⟨t2, (m1.sg_atBtnSt i).u16LongPressOldTm, BTN_PRESS_PRE_ST⟩ } with hm2
  have hreg2 : m2.sg_aptBtnPara i = some para := hreg
  have hst2 : m2.sg_atBtnSt i = ⟨t2, (m1.sg_atBtnSt i).u16LongPressOldTm, BTN_PRESS_PRE_ST⟩ :=
    Function.update_same i _ _
  have h3 := process_step m2 f t3 i para hreg2 hen hle
  rw [processCore_at_press_pre_tmout para (m2.sg_atBtnSt i) t3 (f (i.val + 1))
    (by rw [hst2]) hl hdeb (by rw [hst2]; exact ht)] at h3
  set m3 : BtnModule :=
    { m2 with sg_atBtnSt := Function.update m2.sg_atBtnSt i { m2.sg_atBtnSt i with u8BtnSt := BTN_PRESSED_EVT } } with hm3
  have hreg3 : m3.sg_aptBtnPara i = some para := hreg
  have hst3 : m3.sg_atBtnSt i = { m2.sg_atBtnSt i with u8BtnSt := BTN_PRESSED_EVT } :=
    Function.update_same i _ _
  have h4 := process_step m3 f t4 i para hreg3 hen hle
  rw [processCore_at_pressed_evt para (m3.sg_atBtnSt i) t4 (f (i.val + 1))
    (by rw [hst3]) hl] at h4
  refine ⟨m1, m2, m3, _, h1, h2, h3, h4, ?_, by decide⟩
  dsimp only
  rw [Function.update_same]

/-- Claim C1, counterexample: channel 1 of c1_mod has debounce time 0, is
enabled and idle, and at timestamp 5 the level has changed from the
normal level 0 to the pressed level 1; yet this first poll returns event
BTN_NONE_EVT, not BTN_PRESSED_EVT. -/
theorem c1_counterexample :
    c1_para.u16DebounceTm = 0 ∧
    Btn_Channel_Process c1_mod c1_lvl 5 1 =
      some (SUCCESS, some ⟨BTN_NONE_EVT, BTN_IDLE_ST⟩, c1_mod1) ∧
    BTN_NONE_EVT ≠ BTN_PRESSED_EVT :=
  ⟨rfl, rfl, by decide⟩

/-- Witness for c1_pressed_on_fourth_poll at concrete polls 5, 6, 7, 8. -/
theorem c1_witness :
    ∃ m1 m2 m3 m4,
      Btn_Channel_Process c1_mod c1_lvl 5 1 =
        some (SUCCESS, some ⟨BTN_NONE_EVT, BTN_IDLE_ST⟩, m1) ∧
      Btn_Channel_Process m1 c1_lvl 6 1 =
        some (SUCCESS, some ⟨BTN_NONE_EVT, BTN_PRESS_PRE_ST⟩, m2) ∧
      Btn_Channel_Process m2 c1_lvl 7 1 =
        some (SUCCESS, some ⟨BTN_NONE_EVT, BTN_IDLE_ST⟩, m3) ∧
      Btn_Channel_Process m3 c1_lvl 8 1 =
        some (SUCCESS, some ⟨BTN_PRESSED_EVT, BTN_PRESS_AFT_ST⟩, m4) ∧
      (m4.sg_atBtnSt i0).u8BtnSt = BTN_PRESS_AFT_ST ∧
      BTN_NONE_EVT ≠ BTN_PRESSED_EVT :=
  c1_pressed_on_fourth_poll c1_mod c1_lvl 5 6 7 8 i0 c1_para rfl rfl rfl rfl
    (by decide) (by decide) (by decide)

/-! Claim C9: enable and disable. -/

/-- One Btn_Func_En_Dis call on a registered in-range channel: the enable
flag is written through the parameter pointer and the FSM state is reset
to BTN_IDLE_ST. -/
theorem en_dis_at (m : BtnModule) (i : Fin MAX_BTN_CH) (para : T_BTN_PARA)
    (flag : Nat) (hreg : m.sg_aptBtnPara i = some para) :
    Btn_Func_En_Dis m (i.val + 1) flag =
      some { m with
        sg_aptBtnPara := Function.update m.sg_aptBtnPara i (some { para with u8BtnEn := flag }),
        sg_atBtnSt := Function.update m.sg_atBtnSt i { m.sg_atBtnSt i with u8BtnSt := BTN_IDLE_ST } } := by
  unfold Btn_Func_En_Dis
  have hi : i.val < MAX_BTN_CH := i.isLt
  have hidx : ((i.val + 1) % 256 + 255) % 256 = i.val := by
    simp only [MAX_BTN_CH] at hi
    omega
  simp only [hidx]
  rw [dif_pos hi]
  simp only [Fin.eta, hreg]

/-- Claim C9: Btn_Func_En_Dis on a registered in-range channel writes the
given flag into the channel configuration and resets the FSM state to
BTN_IDLE_ST whatever phase the channel was in; re-enabling afterwards
keeps the state at BTN_IDLE_ST, so polling restarts from Idle. -/
theorem c9_en_dis (m : BtnModule) (i : Fin MAX_BTN_CH) (para : T_BTN_PARA)
    (flag : Nat) (hreg : m.sg_aptBtnPara i = some para) :
    ∃ m2,
      Btn_Func_En_Dis m (i.val + 1) flag = some m2 ∧
      m2.sg_aptBtnPara i = some { para with u8BtnEn := flag } ∧
      (m2.sg_atBtnSt i).u8BtnSt = BTN_IDLE_ST ∧
      ∃ m3,
        Btn_Func_En_Dis m2 (i.val + 1) BTN_FUNC_ENABLE = some m3 ∧
        m3.sg_aptBtnPara i = some { para with u8BtnEn := BTN_FUNC_ENABLE } ∧
        (m3.sg_atBtnSt i).u8BtnSt = BTN_IDLE_ST := by
  have h1 := en_dis_at m i para flag hreg
  set m2 : BtnModule :=
    { m with
      sg_aptBtnPara := Function.update m.sg_aptBtnPara i (some { para with u8BtnEn := flag }),
      sg_atBtnSt := Function.update m.sg_atBtnSt i { m.sg_atBtnSt i with u8BtnSt := BTN_IDLE_ST } } with hm2
  have hpa2 : m2.sg_aptBtnPara i = some { para with u8BtnEn := flag } :=
    Function.update_same i _ _
  have hst2 : (m2.sg_atBtnSt i).u8BtnSt = BTN_IDLE_ST := by
    rw [hm2]
    dsimp only
    rw [Function.update_same]
  have h2 := en_dis_at m2 i { para with u8BtnEn := flag } BTN_FUNC_ENABLE hpa2
  refine ⟨m2, h1, hpa2, hst2, _, h2, Function.update_same i _ _, ?_⟩
  dsimp only
  rw [Function.update_same]

/-- Witness for c9_en_dis: disable channel 1 mid-press, then re-enable. -/
theorem c9_witness :
    ∃ m2,
      Btn_Func_En_Dis c9_mod 1 BTN_FUNC_DISABLE = some m2 ∧
      m2.sg_aptBtnPara i0 = some { c9_para with u8BtnEn := BTN_FUNC_DISABLE } ∧
      (m2.sg_atBtnSt i0).u8BtnSt = BTN_IDLE_ST ∧
      ∃ m3,
        Btn_Func_En_Dis m2 1 BTN_FUNC_ENABLE = some m3 ∧
        m3.sg_aptBtnPara i0 = some { c9_para with u8BtnEn := BTN_FUNC_ENABLE } ∧
        (m3.sg_atBtnSt i0).u8BtnSt = BTN_IDLE_ST :=
  c9_en_dis c9_mod i0 c9_para BTN_FUNC_DISABLE rfl

/-! Claim C10: repeated general init. -/

/-- A call of Btn_General_Init that returned SUCCESS was given two
non-NULL pointers. -/
theorem general_init_success_args (g : BtnGeneral) (p q : Option Nat)
    (h : (Btn_General_Init g p q).1 = SUCCESS) : p ≠ none ∧ q ≠ none := by
  unfold Btn_General_Init at h
  by_cases hp : p = none
  · rw [if_pos hp] at h
    simp [BTN_ERROR, SUCCESS] at h
  · by_cases hq : q = none
    · rw [if_neg hp] at h
      simp only [hq, if_true, if_pos rfl] at h
      simp [BTN_ERROR, SUCCESS] at h
    · exact ⟨hp, hq⟩

/-- After a call of Btn_General_Init with two non-NULL pointers, it
returned SUCCESS and both registered slots are non-NULL. -/
theorem general_init_fields (g : BtnGeneral) (p q : Option Nat)
    (hp : p ≠ none) (hq : q ≠ none) :
    (Btn_General_Init g p q).1 = SUCCESS ∧
    (Btn_General_Init g p q).2.sg_pfGetTm ≠ none ∧
    (Btn_General_Init g p q).2.sg_pfGetBtnSt ≠ none := by
  unfold Btn_General_Init
  rw [if_neg hp, if_neg hq]
  refine ⟨rfl, ?_, ?_⟩ <;> split_ifs <;> simp_all

/-- Btn_General_Init is a no-op returning SUCCESS once both slots are
registered and it is passed non-NULL pointers. -/
theorem general_init_noop (g : BtnGeneral) (pt pb : Option Nat)
    (h1 : g.sg_pfGetTm ≠ none) (h2 : g.sg_pfGetBtnSt ≠ none)
    (hpt : pt ≠ none) (hpb : pb ≠ none) :
    Btn_General_Init g pt pb = (SUCCESS, g) := by
  unfold Btn_General_Init
  simp only [if_neg hpt, if_neg h1, if_neg hpb, if_neg h2]

/-- Claim C10: once Btn_General_Init has returned SUCCESS, a later call
with non-NULL pointers also returns SUCCESS and leaves the registered
time-source and button-state-source slots exactly as they were: the new
pointers are ignored. -/
theorem c10_reinit_noop (g : BtnGeneral) (p q pt pb : Option Nat)
    (h : (Btn_General_Init g p q).1 = SUCCESS)
    (hpt : pt ≠ none) (hpb : pb ≠ none) :
    Btn_General_Init (Btn_General_Init g p q).2 pt pb =
      (SUCCESS, (Btn_General_Init g p q).2) := by
  obtain ⟨hp, hq⟩ := general_init_success_args g p q h
  obtain ⟨-, h1, h2⟩ := general_init_fields g p q hp hq
  exact general_init_noop _ pt pb h1 h2 hpt hpb

/-- Witness for c10_reinit_noop: register pointers 4 and 9 into the empty
module, then call again with pointers 7 and 8. -/
theorem c10_witness :
    Btn_General_Init (Btn_General_Init ⟨none, none⟩ (some 4) (some 9)).2
        (some 7) (some 8) =
      (SUCCESS, (Btn_General_Init ⟨none, none⟩ (some 4) (some 9)).2) :=
  c10_reinit_noop ⟨none, none⟩ (some 4) (some 9) (some 7) (some 8) rfl
    (by decide) (by decide)
